/-
Verification of the northstar social-media automation service.

Shallow embedding of the Python sources into Lean 4:
* pure functions become Lean functions;
* Python `float` arithmetic is modelled over `ℚ` (for every comparison that
  appears in the sources, the double rounding error is far too small to move
  the comparison across an integer or rational threshold, so the rational
  model is exact on the reachable inputs);
* fallible code (constructors raising `ValueError`, handlers raising
  `HTTPException`) returns `Except`;
* dictionary keys that are present on some code paths and absent on others
  (`fallback_mode`, `character_count`, ...) become `Option` fields, with
  `none` meaning "key absent";
* calls to `random.choice` take the chosen index as an explicit parameter;
* calls out to the Anthropic API take the (possibly failing) response as an
  explicit `Except` parameter.
-/
import Mathlib

namespace Northstar

/-! ## Domain entity: Content (src/core/domain/entities/content.py) -/

inductive Platform where
  | twitter | instagram | linkedin | tiktok | facebook
  deriving DecidableEq, Repr

inductive ContentStatus where
  | draft | scheduled | published | failed | archived
  deriving DecidableEq, Repr

inductive ContentType where
  | post | thread | story | reel | video
  deriving DecidableEq, Repr

/-- `ContentMetrics` dataclass: counters plus the two derived rates. -/
structure ContentMetrics where
  impressions : ℕ := 0
  engagements : ℕ := 0
  likes : ℕ := 0
  shares : ℕ := 0
  comments : ℕ := 0
  clicks : ℕ := 0
  saves : ℕ := 0
  reach : ℕ := 0
  engagement_rate : ℚ := 0
  ctr : ℚ := 0
  deriving DecidableEq, Repr

/-- `ContentMetrics.calculate_engagement_rate`. -/
def ContentMetrics.calculate_engagement_rate (m : ContentMetrics) : ℚ :=
  if m.impressions = 0 then 0
  else ((m.engagements : ℚ) / (m.impressions : ℚ)) * 100

/-- `ContentMetrics.calculate_ctr`. -/
def ContentMetrics.calculate_ctr (m : ContentMetrics) : ℚ :=
  if m.impressions = 0 then 0
  else ((m.clicks : ℚ) / (m.impressions : ℚ)) * 100

/-- `Content` dataclass.  Timestamps are modelled as integers (epoch
seconds); the generation-metadata dictionary is dropped (no claim reads
it). -/
structure Content where
  id : String := ""
  user_id : String := ""
  platform : Platform := .twitter
  content_type : ContentType := .post
  status : ContentStatus := .draft
  text : String := ""
  media_urls : List String := []
  hashtags : List String := []
  mentions : List String := []
  original_prompt : String := ""
  variants : List String := []
  scheduled_for : Option ℤ := none
  published_at : Option ℤ := none
  external_id : Option String := none
  external_url : Option String := none
  metrics : ContentMetrics := {}
  created_at : ℤ := 0
  updated_at : ℤ := 0
  deriving DecidableEq, Repr

/-- `Content.__post_init__`: the dataclass constructor validates business
rules and raises `ValueError` (modelled as `Except.error`) on violation.
Python truthiness: `not self.user_id` is emptiness of the string, and
`not self.text and not self.media_urls` is emptiness of both. -/
def Content.mk_validated (c : Content) : Except String Content :=
  if c.user_id = "" then .error "User ID is required"
  else if c.text = "" ∧ c.media_urls = [] then .error "Content must have text or media"
  else if c.platform = .twitter ∧ c.text.length > 280 then
    .error "Twitter content exceeds 280 characters"
  else .ok c

/-- `Content.can_be_published` (the `platform is not None` conjunct is
always true for the dataclass, whose field is never `None`). -/
def Content.can_be_published (c : Content) : Bool :=
  (c.status = ContentStatus.draft ∨ c.status = ContentStatus.scheduled) ∧
    (c.text ≠ "" ∨ c.media_urls ≠ [])

/-- `Content.schedule`: `now` stands for `datetime.utcnow()`. -/
def Content.schedule (c : Content) (scheduled_time now : ℤ) : Except String Content :=
  if ¬ c.can_be_published then .error "Content cannot be scheduled"
  else if scheduled_time ≤ now then .error "Scheduled time must be in the future"
  else .ok { c with scheduled_for := some scheduled_time,
                    status := ContentStatus.scheduled, updated_at := now }

/-- `Content.publish`. -/
def Content.publish (c : Content) (external_id external_url : String) (now : ℤ) : Content :=
  { c with status := ContentStatus.published, published_at := some now,
           external_id := some external_id, external_url := some external_url,
           updated_at := now }

/-- `Content.update_metrics`: stores the metrics and recomputes the two
derived rates. -/
def Content.update_metrics (c : Content) (m : ContentMetrics) (now : ℤ) : Content :=
  let m' := { m with engagement_rate := m.calculate_engagement_rate,
                     ctr := m.calculate_ctr }
  { c with metrics := m', updated_at := now }

/-- `Content.get_character_count`. -/
def Content.get_character_count (c : Content) : ℕ :=
  c.text.length

/-- The `platform_averages` dictionary of `Content.is_viral` (percent
units). -/
def platform_average : Platform → ℚ
  | .twitter => 1
  | .instagram => 3/2
  | .linkedin => 2
  | .tiktok => 5
  | .facebook => 4/5

/-- `Content.is_viral` with its default `threshold_multiplier=5.0`. -/
def Content.is_viral (c : Content) (threshold_multiplier : ℚ := 5) : Bool :=
  if c.metrics.impressions = 0 then false
  else decide (c.metrics.engagement_rate > platform_average c.platform * threshold_multiplier)

/-! ## Domain entity: User (src/core/domain/entities/user.py) -/

inductive UserTier where
  | free | pro | enterprise
  deriving DecidableEq, Repr

inductive UserStatus where
  | active | inactive | suspended
  deriving DecidableEq, Repr

/-- `User` dataclass (the fields the business rules read; the monthly
counters are Python ints that the application only ever increments from 0,
so they are modelled as `ℕ`). -/
structure User where
  id : String := ""
  email : String := ""
  tier : UserTier := .free
  status : UserStatus := .active
  monthly_generations : ℕ := 0
  monthly_engagements : ℕ := 0
  deriving DecidableEq, Repr

/-- A tier limit: `some n` for a finite limit, `none` for `float('inf')`. -/
def TierLimit := Option ℕ

/-- `m < limit` where `limit` may be `float('inf')` (every int is below
infinity). -/
def belowLimit (m : ℕ) : Option ℕ → Bool
  | none => true
  | some n => m < n

/-- The `limits` dictionary of `User.can_generate_content`. -/
def generationLimit : UserTier → Option ℕ
  | .free => some 10
  | .pro => none
  | .enterprise => none

/-- The `limits` dictionary of `User.can_auto_engage`. -/
def engagementLimit : UserTier → Option ℕ
  | .free => some 0
  | .pro => some 50
  | .enterprise => none

/-- `User.can_generate_content`. -/
def User.can_generate_content (u : User) : Bool :=
  if u.status ≠ UserStatus.active then false
  else belowLimit u.monthly_generations (generationLimit u.tier)

/-- `User.can_auto_engage`. -/
def User.can_auto_engage (u : User) : Bool :=
  if u.status ≠ UserStatus.active then false
  else belowLimit u.monthly_engagements (engagementLimit u.tier)

/-! ## EngagementAgent spam filter (src/agents/engagement_agent.py) -/

/-- `self.spam_keywords`. -/
def spam_keywords : List (List Char) :=
  ["buy now".data, "click here".data, "limited offer".data, "act now".data]

/-- Python's substring test `needle in hay` on strings, over `List Char`. -/
def containsSub (needle : List Char) : List Char → Bool
  | [] => needle.isEmpty
  | a :: as => needle.isPrefixOf (a :: as) || containsSub needle as

/-- `EngagementAgent._check_spam_filter`, parametrised by the character
case predicates `isupper` (Python `str.isupper` per character) and
`tolower` (Python `str.lower` per character).  The uppercase-ratio test
`sum(...)/max(len,1) > 0.3` is rendered exactly over integers as
`10 * upper > 3 * max(len,1)`. -/
def check_spam_filter_with (isupper : Char → Bool) (tolower : Char → Char)
    (content : List Char) : Bool :=
  let content_lower := content.map tolower
  if spam_keywords.any (fun k => containsSub k content_lower) then true
  else
    let excessive_caps := 10 * (content.filter isupper).length > 3 * max content.length 1
    let excessive_punctuation := content.count '!' > 2 || content.count '?' > 2
    decide excessive_caps || excessive_punctuation

/-- `EngagementAgent._check_spam_filter` with the executable case
predicates `Char.isUpper` / `Char.toLower`, which agree with Python on
ASCII text (Python case-classifies the full Unicode range; the C7
theorem is proved for EVERY choice of the two predicates, so it covers
the Unicode ones as well). -/
def check_spam_filter : List Char → Bool :=
  check_spam_filter_with Char.isUpper Char.toLower

/-- `self.safe_templates` of `EngagementAgent._regenerate_safe_response`. -/
def safe_templates : List String :=
  ["Thanks for sharing this perspective!",
   "This is really interesting, appreciate you posting this.",
   "Great point! This adds valuable context to the discussion.",
   "Love seeing thoughtful content like this.",
   "This resonates with many people, thanks for sharing."]

/-- The `response` dictionaries produced inside `EngagementAgent`. -/
structure EngResponse where
  content : String
  rtype : String
  confidence : ℚ
  deriving DecidableEq, Repr

/-- `EngagementAgent._regenerate_safe_response` (`random.choice` takes the
chosen index). -/
def regenerate_safe_response (choice : Fin 5) : EngResponse :=
  { content := safe_templates.get ⟨choice, by simp [safe_templates]⟩,
    rtype := "safe_fallback", confidence := 3/5 }

/-- The spam-filter step of `EngagementAgent.engage`: the candidate LLM
reply (which `_generate_response` wraps with confidence 0.85) is replaced
by a safe template when `_check_spam_filter` fires; parametrised by the
character case predicates like `check_spam_filter_with`. -/
def engage_filter_step_with (isupper : Char → Bool) (tolower : Char → Char)
    (reply : String) (engagement_type : String) (choice : Fin 5) : EngResponse :=
  let response : EngResponse := { content := reply, rtype := engagement_type, confidence := 17/20 }
  if check_spam_filter_with isupper tolower response.content.data then
    regenerate_safe_response choice
  else response

/-- The spam-filter step with the executable ASCII case predicates. -/
def engage_filter_step : String → String → Fin 5 → EngResponse :=
  engage_filter_step_with Char.isUpper Char.toLower

/-! ## ContentAgent trimming (src/agents/content_agent.py) -/

/-- `self.platform_limits` of `ContentAgent`. -/
def platform_limits : String → Option ℕ
  | "twitter" => some 280
  | "instagram" => some 2200
  | "tiktok" => some 2200
  | "linkedin" => some 3000
  | _ => none

/-- Python `str.rfind(c)`: the highest index at which `c` occurs, `-1`
when it does not occur. -/
def rfind (c : Char) : List Char → ℤ
  | [] => -1
  | a :: as =>
    let r := rfind c as
    if r ≥ 0 then r + 1
    else if a = c then 0 else -1

/-- `ContentAgent._trim_to_limit` over `List Char`.  The float comparison
`last_space > limit * 0.8` is rendered exactly over integers as
`5 * last_space > 4 * limit` (for the limits in `platform_limits`, the
double product `limit * 0.8` rounds to the exact value `0.8·limit`, and an
integer exceeds it iff it exceeds `4·limit/5`). -/
def trim_to_limit (content : List Char) (limit : ℕ) : List Char :=
  if content.length ≤ limit then content
  else
    let trimmed := content.take (limit - 3) ++ "...".data
    let last_space := rfind ' ' trimmed
    if 5 * last_space > 4 * (limit : ℤ) then
      trimmed.take last_space.toNat ++ "...".data
    else trimmed

/-! ## AnalyticsAgent ROI (src/agents/analytics_agent.py) -/

/-- Python's round-half-to-even on a rational (the rounding used by the
`:.0f` / `:.1f` format specifiers). -/
def roundHalfEven (q : ℚ) : ℤ :=
  let f := ⌊q⌋
  let r := q - f
  if r < 1/2 then f
  else if r > 1/2 then f + 1
  else if f % 2 = 0 then f else f + 1

/-- The `:.0f` format specifier. -/
def fmt0 (q : ℚ) : String :=
  toString (roundHalfEven q)

/-- The `:.1f` format specifier (on the non-negative values this program
formats). -/
def fmt1 (q : ℚ) : String :=
  let n := roundHalfEven (q * 10)
  toString (n / 10) ++ "." ++ toString (n % 10)

/-- The metrics dictionary assembled by `AnalyticsAgent._fetch_metrics`,
restricted to the keys the ROI / summary computations read.  Field
defaults mirror the `metrics.get(..., default)` fallbacks. -/
structure AnalyticsMetrics where
  impressions : ℕ := 1000
  engagements : ℕ := 0
  clicks : ℕ := 0
  followers_gained : ℕ := 0
  posts_created : ℕ := 1
  avg_engagement_rate : ℚ := 1/20
  audience_growth_rate : ℚ := 1/20
  deriving DecidableEq, Repr

/-- The dictionary returned by `AnalyticsAgent._calculate_roi`. -/
structure RoiAnalysis where
  time_saved : String
  estimated_value : String
  efficiency_gain : String
  engagement_lift : String
  cost_per_engagement : String
  deriving DecidableEq, Repr

/-- `AnalyticsAgent._calculate_roi` (float literals `0.5`, `0.1`, `2.5` as
exact rationals). -/
def calculate_roi (metrics : AnalyticsMetrics) : RoiAnalysis :=
  let posts : ℚ := metrics.posts_created
  let engagements : ℚ := metrics.engagements
  let followers_gained : ℚ := metrics.followers_gained
  let time_saved_hours := posts * (1/2)
  let engagement_value := engagements * (1/10)
  let follower_value := followers_gained * 5
  let total_value := engagement_value + follower_value
  { time_saved := fmt1 time_saved_hours ++ " hours",
    estimated_value := "₩" ++ fmt0 total_value ++ "K",
    efficiency_gain := fmt0 (min 70 (posts * (5/2))) ++ "%",
    engagement_lift := fmt1 (metrics.avg_engagement_rate * 100) ++ "%",
    cost_per_engagement := "₩" ++ fmt0 (299000 / max engagements 1) }

/-! ## AnalyticsAgent summary (src/agents/analytics_agent.py) -/

/-- The summary dictionary returned by `AnalyticsAgent.get_summary`,
projected to the fields the claims read.  `fallback_mode : Option Bool`
records whether a `fallback_mode` key is present in the payload: no code
path of `get_summary` or `_fallback_analytics` ever writes that key, so
the field keeps its `none` default on every path. -/
structure SummaryResult where
  days : ℕ
  impressions : ℕ
  engagements : ℕ
  avg_engagement_rate : ℚ
  followers_gained : ℕ
  insights : List String
  prediction_confidence : ℚ
  roi_time_saved : String
  roi_efficiency_gain : String
  fallback_mode : Option Bool := none
  deriving DecidableEq, Repr

/-- `AnalyticsAgent._fallback_analytics`: the fixed synthetic summary.
Its dictionary carries no `fallback_mode` (and no `mock`) key. -/
def fallback_analytics (_platform : String) (days : ℕ) : SummaryResult :=
  { days := days, impressions := 5000, engagements := 250,
    avg_engagement_rate := 1/20, followers_gained := 50,
    insights := ["Engagement trending upward"],
    prediction_confidence := 1/2,
    roi_time_saved := "10 hours", roi_efficiency_gain := "50%" }

/-- `AnalyticsAgent.get_summary`.  `_fetch_metrics` draws random synthetic
data, taken here as the input `m`; `_generate_insights` catches its own
LLM failures internally and always yields a list of insights, taken as
the input `insights`; the sklearn regression of `_generate_predictions`
(also internally guarded) is abstracted to its resulting confidence.  An
exception anywhere in the `try` body (`failure`) lands in
`_fallback_analytics`. -/
def AnalyticsAgent.get_summary (failure : Option String) (m : AnalyticsMetrics)
    (insights : List String) (prediction_confidence : ℚ)
    (platform : String) (days : ℕ) : SummaryResult :=
  match failure with
  | some _ => fallback_analytics platform days
  | none =>
    { days := days, impressions := m.impressions, engagements := m.engagements,
      avg_engagement_rate := m.avg_engagement_rate,
      followers_gained := m.followers_gained,
      insights := insights, prediction_confidence := prediction_confidence,
      roi_time_saved := (calculate_roi m).time_saved,
      roi_efficiency_gain := (calculate_roi m).efficiency_gain }

/-! ## ContentAgent generation (src/agents/content_agent.py) -/

/-- `random.choice` over a list, with the chosen position supplied as a
parameter (reduced modulo the length, so the pick is always a member). -/
def pick (l : List String) (choice : ℕ) : String :=
  l.getD (choice % l.length) ""

/-- `ContentAgent._fetch_trends` (its `try` body is a constant list). -/
def fetch_trends : List String :=
  ["AI", "sustainability", "innovation", "growth", "community"]

/-- `ContentAgent._enhance_with_trends`. -/
def enhance_with_trends (prompt : String) : String :=
  let trend_keywords := fetch_trends
  if trend_keywords ≠ [] then
    prompt ++ " (Consider trending topics: " ++
      String.intercalate ", " (trend_keywords.take 3) ++ ")"
  else prompt

/-- The `emoji_map` of `ContentAgent._add_emojis`, in insertion order. -/
def emoji_map : List (String × String) :=
  [("great", "🎉"), ("new", "✨"), ("important", "⚡"), ("love", "❤️"), ("think", "🤔")]

/-- `ContentAgent._add_emojis`: the loop prepends the emoji of the first
map entry whose word occurs in the lower-cased content and whose emoji
does not already occur, then breaks. -/
def add_emojis (content : String) : String :=
  (emoji_map.find? fun we =>
      containsSub we.1.data (content.data.map Char.toLower) &&
        !containsSub we.2.data content.data).elim
    content (fun we => we.2 ++ " " ++ content)

/-- The `questions` list of `ContentAgent._add_question`. -/
def add_question_templates : List String :=
  ["What do you think?", "Agree or disagree?", "Your thoughts?",
   "Have you experienced this?"]

/-- `ContentAgent._add_question`. -/
def add_question (content : String) (qchoice : ℕ) : String :=
  if ¬ containsSub "?".data content.data then
    content ++ " " ++ pick add_question_templates qchoice
  else content

/-- `ContentAgent._create_ab_variants`. -/
def create_ab_variants (content : String) (_platform : String) (qchoice : ℕ) : List String :=
  let variants := [content]
  let emoji_variant := add_emojis content
  let variants := if emoji_variant ≠ content then variants ++ [emoji_variant] else variants
  let question_variant := add_question content qchoice
  let variants := if question_variant ≠ content then variants ++ [question_variant] else variants
  variants.take 3

/-- The metadata dictionary of a `ContentAgent.generate` result; `none`
fields are keys the corresponding code path leaves absent. -/
structure ContentGenMetadata where
  platform : String
  virality_optimized : Option Bool := none
  character_count : Option ℕ := none
  fallback_mode : Option Bool := none
  deriving DecidableEq, Repr

/-- The dictionary returned by `ContentAgent.generate`. -/
structure ContentGenResult where
  primary_content : String
  variants : List String
  metadata : ContentGenMetadata
  deriving DecidableEq, Repr

/-- The `templates` dictionary of `ContentAgent._fallback_generation`
(lookup with `templates.get(platform, templates['default'])`). -/
def fallback_templates (platform prompt : String) : List String :=
  match platform with
  | "twitter" =>
    ["🚀 " ++ prompt.take 100 ++ "... What are your thoughts? #Innovation #AI",
     "Breaking: " ++ prompt.take 150 ++ " 🔥 Share if you agree!",
     "Quick tip: " ++ prompt.take 200 ++ " 💡 Follow for more insights!"]
  | "instagram" =>
    ["✨ " ++ prompt ++ "\n\n#Trending #SocialMedia #ContentCreation #AI",
     "Story time: " ++ prompt ++ "\n\nDouble tap if this resonates! ❤️"]
  | _ => ["Check this out: " ++ prompt ++ " #Trending"]

/-- `ContentAgent._fallback_generation`: fixed local templates, metadata
annotated with `fallback_mode: True`. -/
def fallback_generation (platform prompt : String) (fchoice : ℕ) : ContentGenResult :=
  let content := pick (fallback_templates platform prompt) fchoice
  { primary_content := content, variants := [content],
    metadata := { platform := platform, fallback_mode := some true } }

/-- `ContentAgent.generate`.  The Anthropic call of
`_generate_with_claude` is the input `llm`; on its failure the `except`
clause of `generate` answers with `_fallback_generation` — note that the
`prompt` variable was already re-bound to its trend-enhanced form inside
the `try`, so the fallback sees the enhanced prompt. -/
def ContentAgent.generate (llm : Except String String) (qchoice fchoice : ℕ)
    (platform prompt : String) (optimize_for_virality : Bool := true) : ContentGenResult :=
  let prompt := if optimize_for_virality then enhance_with_trends prompt else prompt
  match llm with
  | .error _ => fallback_generation platform prompt fchoice
  | .ok content =>
    let content := match platform_limits platform with
      | some l => String.mk (trim_to_limit content.data l)
      | none => content
    let variants := create_ab_variants content platform qchoice
    { primary_content := content, variants := variants,
      metadata := { platform := platform,
                    virality_optimized := some optimize_for_virality,
                    character_count := some content.length } }

/-! ## EngagementAgent engage (src/agents/engagement_agent.py) -/

/-- The mutable agent fields `engagement_count` / `last_reset` (epoch
seconds). -/
structure EngState where
  engagement_count : ℕ := 0
  last_reset : ℤ := 0
  deriving DecidableEq, Repr

/-- `EngagementAgent._check_rate_limit` (`self.daily_limit = 50`,
`timedelta(days=1)` = 86400 s). -/
def check_rate_limit (s : EngState) (now : ℤ) : Bool × EngState :=
  let s := if now - s.last_reset > 86400 then
    { engagement_count := 0, last_reset := now } else s
  (s.engagement_count < 50, s)

/-- The optional `context` dictionary of `EngagementAgent.engage`
(`sentiment` defaults to `'neutral'` via `.get`). -/
structure EngContext where
  sentiment : String := "neutral"
  is_question : Bool := false
  deriving DecidableEq, Repr

/-- `EngagementAgent._determine_engagement_type`. -/
def determine_engagement_type (context : Option EngContext) (tchoice : ℕ) : String :=
  match context with
  | none => "generic_reply"
  | some c =>
    if c.sentiment = "positive" then
      pick ["supportive_reply", "amplification", "appreciation"] tchoice
    else if c.sentiment = "negative" then
      pick ["empathetic_reply", "constructive_feedback"] tchoice
    else if c.is_question then "helpful_answer"
    else pick ["thoughtful_comment", "value_add"] tchoice

/-- The metadata dictionary of an `EngagementAgent.engage` result; `none`
fields are keys the corresponding code path leaves absent. -/
structure EngageMetadata where
  platform : String
  post_id : String
  etype : Option String := none
  daily_count : Option ℕ := none
  fallback_mode : Option Bool := none
  deriving DecidableEq, Repr

/-- The dictionary returned by `EngagementAgent.engage`. -/
structure EngageResult where
  status : String
  message : Option String := none
  engagement : Option EngResponse := none
  metadata : Option EngageMetadata := none
  deriving DecidableEq, Repr

/-- The `fallback_responses` dictionary of
`EngagementAgent._fallback_engagement`. -/
def fallback_responses (platform : String) : List String :=
  match platform with
  | "twitter" => ["Great thread! 🙌", "Thanks for sharing this insight!", "This is so important 💯"]
  | "instagram" => ["Love this! ❤️", "So inspiring! ✨", "This is everything! 🔥"]
  | "linkedin" => ["Thank you for sharing these insights.", "This is a valuable perspective.",
                   "Excellent points raised here."]
  | _ => ["Thanks for sharing!", "Great post!", "Interesting perspective!"]

/-- `EngagementAgent._fallback_engagement`: fixed local replies, metadata
annotated with `fallback_mode: True`. -/
def fallback_engagement (platform post_id : String) (fchoice : ℕ) : EngageResult :=
  { status := "success",
    engagement := some { content := pick (fallback_responses platform) fchoice,
                         rtype := "fallback", confidence := 1/2 },
    metadata := some { platform := platform, post_id := post_id,
                       fallback_mode := some true } }

/-- `EngagementAgent.engage`.  The Anthropic call of
`_generate_response` is the input `llm` (on success it wraps the reply
with confidence 0.85); its failure is re-raised and lands in the
`except` clause, which answers with `_fallback_engagement`. -/
def EngagementAgent.engage (llm : Except String String) (s : EngState) (now : ℤ)
    (tchoice : ℕ) (safe_choice : Fin 5) (fchoice : ℕ)
    (platform post_id : String) (context : Option EngContext) :
    EngageResult × EngState :=
  let (ok, s) := check_rate_limit s now
  if ¬ ok then
    ({ status := "rate_limited", message := some "Daily engagement limit reached" }, s)
  else
    let engagement_type := determine_engagement_type context tchoice
    match llm with
    | .error _ => (fallback_engagement platform post_id fchoice, s)
    | .ok reply =>
      let response := engage_filter_step reply engagement_type safe_choice
      let s := { s with engagement_count := s.engagement_count + 1 }
      ({ status := "success", engagement := some response,
         metadata := some { platform := platform, post_id := post_id,
                            etype := some engagement_type,
                            daily_count := some s.engagement_count } }, s)

/-! ## ContentService (src/core/application/services/content_service.py) -/

/-- The application exceptions
(src/core/application/exceptions.py) plus a propagated entity
`ValueError`. -/
inductive ServiceError where
  | userNotFound (msg : String)
  | validation (msg : String)
  | contentGeneration (msg : String)
  | valueError (msg : String)
  deriving DecidableEq, Repr

/-- The two repositories, as lookup functions from id to entity. -/
structure Repos where
  users : String → Option User
  contents : String → Option Content

/-- `ContentService.schedule_content`.  The repository update and the
scheduler registration are effects on the stored copy; the returned
value is the updated content entity. -/
def ContentService.schedule_content (r : Repos)
    (user_id content_id : String) (scheduled_time now : ℤ) :
    Except ServiceError Content :=
  match r.users user_id with
  | none => .error (.userNotFound ("User " ++ user_id ++ " not found"))
  | some _user =>
    match r.contents content_id with
    | none => .error (.validation "Content not found or access denied")
    | some content =>
      if content.user_id ≠ user_id then
        .error (.validation "Content not found or access denied")
      else
        match content.schedule scheduled_time now with
        | .error m => .error (.valueError m)
        | .ok updated => .ok updated

/-- `ContentService.publish_content`.  The platform call
`social_media_service.publish_post` is the input `publish_result`
(post id and url on success). -/
def ContentService.publish_content (r : Repos)
    (publish_result : Except String (String × String))
    (user_id content_id : String) (now : ℤ) : Except ServiceError Content :=
  match r.users user_id with
  | none => .error (.userNotFound ("User " ++ user_id ++ " not found"))
  | some _user =>
    match r.contents content_id with
    | none => .error (.validation "Content not found or access denied")
    | some content =>
      if content.user_id ≠ user_id then
        .error (.validation "Content not found or access denied")
      else if ¬ content.can_be_published then
        .error (.validation "Content cannot be published in current state")
      else
        match publish_result with
        | .error e => .error (.contentGeneration ("Failed to publish content: " ++ e))
        | .ok (post_id, post_url) => .ok (content.publish post_id post_url now)

/-- `ContentService.get_content_analytics`.  The competitive analysis and
recommendations are opaque extra payload; the content entity placed under
the `'content'` key of the answer is what the function returns here
(`fresh_metrics` is the optional platform refresh). -/
def ContentService.get_content_analytics (r : Repos)
    (fresh_metrics : Option ContentMetrics)
    (user_id content_id : String) (now : ℤ) : Except ServiceError Content :=
  match r.users user_id with
  | none => .error (.userNotFound ("User " ++ user_id ++ " not found"))
  | some _user =>
    match r.contents content_id with
    | none => .error (.validation "Content not found or access denied")
    | some content =>
      if content.user_id ≠ user_id then
        .error (.validation "Content not found or access denied")
      else
        let content :=
          if content.status = ContentStatus.published ∧ content.external_id ≠ none then
            match fresh_metrics with
            | some m => content.update_metrics m now
            | none => content
          else content
        .ok content

/-! ## DELETE controller handler
(src/api/controllers/content_controller.py, `delete_content`) -/

/-- A raised `HTTPException`. -/
structure HTTPError where
  status_code : ℕ
  detail : String
  deriving DecidableEq, Repr

/-- `str()` of a starlette `HTTPException`:
`f"{self.status_code}: {self.detail}"`. -/
def HTTPError.str (e : HTTPError) : String :=
  toString e.status_code ++ ": " ++ e.detail

/-- The `delete_content` route handler.  Its `try` body raises
`HTTPException(404)` for a missing or non-owned content and
`HTTPException(500)` for a failed repository delete --- but the trailing
`except Exception as e: raise HTTPException(500, str(e))` also catches
those deliberately raised `HTTPException`s (they are `Exception`
subclasses), so every error leaves the handler with status 500. -/
def delete_content_handler (contents : String → Option Content)
    (content_id user_id : String) (delete_ok : Bool) : Except HTTPError String :=
  let body : Except HTTPError String :=
    match contents content_id with
    | none => .error ⟨404, "Content not found"⟩
    | some content =>
      if content.user_id ≠ user_id then .error ⟨404, "Content not found"⟩
      else if delete_ok then .ok "Content deleted successfully"
      else .error ⟨500, "Failed to delete content"⟩
  match body with
  | .ok m => .ok m
  | .error e => .error ⟨500, e.str⟩

/-! ## Sliding-window rate limiter
(src/api/middleware/rate_limiting.py, `RateLimiter.is_allowed`) -/

/-- The rate-limit headers dictionary built by `is_allowed`. -/
structure RateInfo where
  limit : ℤ
  remaining : ℤ
  reset : ℤ
  retry_after : Option ℤ
  deriving DecidableEq, Repr

/-- The redis sorted set behind one rate key.  Every member written by
`is_allowed` is `str(current_time)` with score `current_time`, so the set
is determined by its set of integer timestamps; `zadd` on an already
present timestamp only rewrites the score and adds no member. -/
def zadd (t : ℤ) (s : List ℤ) : List ℤ :=
  if t ∈ s then s else t :: s

/-- The redis command `zremrangebyscore(key, lo, hi)`: drop every member
whose score lies in `[lo, hi]`. -/
def zremrangebyscore (lo hi : ℤ) (s : List ℤ) : List ℤ :=
  s.filter fun x => decide ¬(lo ≤ x ∧ x ≤ hi)

/-- A redis command buffered on a pipeline by `is_allowed`. -/
inductive RedisCmd where
  | zremrangebyscoreCmd (lo hi : ℤ)
  | zcardCmd
  | zaddCmd (member_score : ℤ)
  | expireCmd (seconds : ℤ)
  deriving DecidableEq, Repr

/-- A Python value bound by the awaited pipeline calls in `is_allowed`:
the int the code expects, or the Pipeline object that an awaited
BUFFERED redis.asyncio pipeline command actually returns (the buffered
commands only run when `pipe.execute()` is awaited, and its result list
is never read by this code). -/
inductive PyVal where
  | int (n : ℤ)
  | pipelineObj (buffered : List RedisCmd)
  deriving DecidableEq, Repr

/-- Python comparison `a < b` against an int: raises `TypeError` when `a`
is not a number. -/
def PyVal.lt : PyVal → ℤ → Except String Bool
  | .int n, b => .ok (decide (n < b))
  | .pipelineObj _, _ => .error "TypeError: Pipeline is not comparable with int"

/-- Python `b - a - 1` for `a` this value: raises `TypeError` when `a` is
not a number. -/
def PyVal.subFrom : PyVal → ℤ → Except String ℤ
  | .int n, b => .ok (b - n - 1)
  | .pipelineObj _, _ => .error "TypeError: Pipeline does not support int subtraction"

/-- The `try` body of `RateLimiter.is_allowed`.  `pipe =
self.redis_client.pipeline()` buffers commands: each awaited pipeline
command appends itself to the buffer and returns the Pipeline OBJECT, so
`current_count = await pipe.zcard(rate_key)` binds the Pipeline, not a
count, and `if current_count < limit` raises `TypeError` before either
branch runs (the two branches below are therefore unreachable;
`zremrangebyscore`/`zadd` model what executing their buffered commands
would do to the stored set). -/
def is_allowed_try (s : List ℤ) (now limit window_seconds : ℤ) :
    Except String ((Bool × Option RateInfo) × List ℤ) := do
  let window_start := now - window_seconds
  let pipe : List RedisCmd := []
  -- await pipe.zremrangebyscore(rate_key, 0, window_start)
  let pipe := pipe ++ [RedisCmd.zremrangebyscoreCmd 0 window_start]
  -- current_count = await pipe.zcard(rate_key)
  let pipe := pipe ++ [RedisCmd.zcardCmd]
  let current_count : PyVal := .pipelineObj pipe
  if ← current_count.lt limit then
    -- unreachable admit branch: buffer zadd/expire, execute, report remaining
    let remaining ← current_count.subFrom limit
    pure ((true, some { limit := limit, remaining := remaining,
                        reset := now + window_seconds, retry_after := none }),
          zadd now (zremrangebyscore 0 window_start s))
  else
    -- unreachable deny branch
    pure ((false, some { limit := limit, remaining := 0,
                         reset := now + window_seconds,
                         retry_after := some window_seconds }),
          s)

/-- `RateLimiter.is_allowed` (redis client reachable): the `try` body
raises `TypeError` on every call, and the blanket `except Exception`
logs and fails open with `return True, {}` (the empty info dictionary is
`none`); the stored set is never touched. -/
def RateLimiter.is_allowed (s : List ℤ) (now limit window_seconds : ℤ) :
    (Bool × Option RateInfo) × List ℤ :=
  match is_allowed_try s now limit window_seconds with
  | .ok r => r
  | .error _ => ((true, none), s)

/-! ## Concrete entities used by the witnesses -/

/-- A twitter content whose body has exactly 280 characters. -/
def tw280 : Content := { user_id := "u1", text := String.mk (List.replicate 280 'a') }

/-- A twitter content whose body has 281 characters. -/
def tw281 : Content := { user_id := "u1", text := String.mk (List.replicate 281 'a') }

/-- A content with all fields valid except the (defaulted, empty)
`user_id`. -/
def no_user_content : Content := { text := "hello" }

/-- A valid twitter content to receive metrics updates. -/
def base_content : Content := { user_id := "u1", text := "hello" }

/-- An active free-tier user with 9 monthly generations. -/
def free_user_9 : User := { email := "a@b.c", monthly_generations := 9 }

/-- An active free-tier user with 10 monthly generations and a nonzero
engagement counter. -/
def free_user_10 : User := { email := "a@b.c", monthly_generations := 10,
                             monthly_engagements := 7 }

/-! ## C1: twitter 280-character construction rule -/

/-- C1: a twitter content whose body exceeds 280 characters is rejected at
construction with a `ValueError`; with exactly 280 characters (and a
non-empty user id, the remaining construction precondition) construction
succeeds and `get_character_count()` returns 280. -/
theorem content_twitter_280_limit (c : Content) (htw : c.platform = Platform.twitter) :
    (c.text.length > 280 → ∃ e, c.mk_validated = Except.error e) ∧
    (c.text.length = 280 → c.user_id ≠ "" →
      c.mk_validated = Except.ok c ∧ c.get_character_count = 280) := by
  constructor
  · intro hlen
    unfold Content.mk_validated
    split_ifs with h1 h2 h3
    · exact ⟨_, rfl⟩
    · exact ⟨_, rfl⟩
    · exact ⟨_, rfl⟩
    · exact absurd ⟨htw, hlen⟩ h3
  · intro hlen huid
    have htext : c.text ≠ "" := by
      intro h
      rw [h] at hlen
      simp at hlen
    unfold Content.mk_validated
    rw [if_neg huid, if_neg (fun h => htext h.1),
      if_neg (fun h => by rw [hlen] at h; exact absurd h.2 (by omega))]
    exact ⟨rfl, hlen⟩

set_option maxRecDepth 8000 in
theorem content_twitter_280_limit_witness :
    (∃ e, tw281.mk_validated = Except.error e) ∧
    tw280.mk_validated = Except.ok tw280 ∧ tw280.get_character_count = 280 :=
  ⟨(content_twitter_280_limit tw281 rfl).1 (by decide),
   (content_twitter_280_limit tw280 rfl).2 (by decide) (by decide)⟩

/-! ## C10: empty user id rejected at construction -/

/-- C10: constructing a `Content` with an empty `user_id` always raises
`ValueError('User ID is required')`, whatever the other fields hold. -/
theorem content_empty_user_id_rejected (c : Content) (h : c.user_id = "") :
    c.mk_validated = Except.error "User ID is required" := by
  unfold Content.mk_validated
  rw [if_pos h]

theorem content_empty_user_id_rejected_witness :
    no_user_content.mk_validated = Except.error "User ID is required" :=
  content_empty_user_id_rejected no_user_content rfl

/-! ## C6: tier capabilities -/

/-- C6: `can_generate_content` is false for non-active users, tracks
`monthly_generations < 10` for active free users and is unconditionally
true for active pro/enterprise users; `can_auto_engage` is false for
non-active users and for every free user, tracks
`monthly_engagements < 50` for active pro users and is unconditionally
true for active enterprise users. -/
theorem user_tier_capabilities (u : User) :
    (u.status ≠ UserStatus.active →
      u.can_generate_content = false ∧ u.can_auto_engage = false) ∧
    (u.status = UserStatus.active → u.tier = UserTier.free →
      (u.can_generate_content = true ↔ u.monthly_generations < 10)) ∧
    (u.tier = UserTier.free → u.can_auto_engage = false) ∧
    (u.status = UserStatus.active → u.tier ≠ UserTier.free →
      u.can_generate_content = true) ∧
    (u.status = UserStatus.active → u.tier = UserTier.pro →
      (u.can_auto_engage = true ↔ u.monthly_engagements < 50)) ∧
    (u.status = UserStatus.active → u.tier = UserTier.enterprise →
      u.can_auto_engage = true) := by
  unfold User.can_generate_content User.can_auto_engage
  rcases u with ⟨id, email, tier, status, mg, me⟩
  cases tier <;> cases status <;>
    simp [belowLimit, generationLimit, engagementLimit]

theorem user_tier_capabilities_witness :
    free_user_10.can_generate_content = false ∧
    free_user_9.can_generate_content = true ∧
    free_user_10.can_auto_engage = false := by
  refine ⟨?_, ?_, (user_tier_capabilities free_user_10).2.2.1 rfl⟩
  · have h := (user_tier_capabilities free_user_10).2.1 rfl rfl
    simpa [free_user_10] using h
  · exact ((user_tier_capabilities free_user_9).2.1 rfl rfl).mpr (by norm_num [free_user_9])

/-! ## C8: virality test -/

/-- C8: `is_viral()` holds exactly when the impressions are nonzero and
the stored engagement rate strictly exceeds five times the platform
average; for twitter content, 600 engagements on 10000 impressions
(rate 6.0) is viral and 10 on 1000 (rate 1.0) is not. -/
theorem content_is_viral_characterization (c : Content) :
    (c.is_viral = true ↔
      c.metrics.impressions ≠ 0 ∧
        c.metrics.engagement_rate > platform_average c.platform * 5) ∧
    (base_content.update_metrics { impressions := 10000, engagements := 600 } 0).is_viral
      = true ∧
    (base_content.update_metrics { impressions := 1000, engagements := 10 } 0).is_viral
      = false := by
  refine ⟨?_, ?_, ?_⟩
  · unfold Content.is_viral
    split_ifs with h
    · simp [h]
    · simp [h]
  · simp [base_content, Content.update_metrics, Content.is_viral,
      ContentMetrics.calculate_engagement_rate, platform_average]
    norm_num
  · simp [base_content, Content.update_metrics, Content.is_viral,
      ContentMetrics.calculate_engagement_rate, platform_average]
    norm_num

theorem content_is_viral_characterization_witness :
    (base_content.update_metrics { impressions := 10000, engagements := 600 } 0).is_viral
      = true :=
  (content_is_viral_characterization _).1.mpr
    ⟨by simp [base_content, Content.update_metrics],
     by
      simp [base_content, Content.update_metrics,
        ContentMetrics.calculate_engagement_rate, platform_average]
      norm_num⟩

/-! ## C9: ROI formulas -/

/-- C9: the ROI report computes `time_saved = posts·0.5` hours,
`estimated_value = engagements·0.1 + followers·5` (rendered `₩<v>K`),
`efficiency_gain = min(70, posts·2.5)` percent, `engagement_lift =
avg_rate·100` percent and `cost_per_engagement = 299000 / max(eng, 1)`
(rendered `₩<v>`); at posts=10, eng=200, followers=50, avg=0.05 this
renders 5.0 hours, ₩270K, 25%, 5.0%, ₩1495. -/
theorem roi_formulas :
    (∀ m : AnalyticsMetrics,
      (calculate_roi m).time_saved = fmt1 ((m.posts_created : ℚ) * (1/2)) ++ " hours" ∧
      (calculate_roi m).estimated_value =
        "₩" ++ fmt0 ((m.engagements : ℚ) * (1/10) + (m.followers_gained : ℚ) * 5) ++ "K" ∧
      (calculate_roi m).efficiency_gain =
        fmt0 (min 70 ((m.posts_created : ℚ) * (5/2))) ++ "%" ∧
      (calculate_roi m).engagement_lift = fmt1 (m.avg_engagement_rate * 100) ++ "%" ∧
      (calculate_roi m).cost_per_engagement =
        "₩" ++ fmt0 (299000 / max (m.engagements : ℚ) 1)) ∧
    calculate_roi { posts_created := 10, engagements := 200, followers_gained := 50,
                    avg_engagement_rate := 1/20 } =
      { time_saved := "5.0 hours", estimated_value := "₩270K", efficiency_gain := "25%",
        engagement_lift := "5.0%", cost_per_engagement := "₩1495" } :=
  ⟨fun _ => ⟨rfl, rfl, rfl, rfl, rfl⟩, by
    simp only [calculate_roi, RoiAnalysis.mk.injEq]
    norm_num [fmt0, fmt1, roundHalfEven]
    exact ⟨rfl, rfl, rfl, rfl, rfl⟩⟩

/-! ## C7: engagement spam filter -/

/-- A reply containing a banned keyword in mixed case. -/
def spam_reply : String := "Check this, buy NOW"

/-- A reply with one uppercase character out of 32, no `!`/`?` and no
banned keyword. -/
def clean_reply : String := "Great point, thanks for sharing."

/-- C7 (for every choice of the per-character case predicates `isupper` /
`tolower` — in particular Python's Unicode-aware `str.isupper` /
`str.lower`, which the executable instantiation `Char.isUpper` /
`Char.toLower` matches on the ASCII witness inputs): a candidate
engagement reply is replaced by one of the five safe templates
(confidence 0.6) exactly when it contains a banned keyword after
lower-casing, strictly more than 30% of its characters are uppercase, or
it contains more than two `!` or more than two `?`; otherwise it passes
through unmodified with confidence 0.85. -/
theorem engagement_spam_filter (isupper : Char → Bool) (tolower : Char → Char)
    (reply etype : String) (choice : Fin 5) :
    check_spam_filter reply.data =
      check_spam_filter_with Char.isUpper Char.toLower reply.data ∧
    engage_filter_step reply etype choice =
      engage_filter_step_with Char.isUpper Char.toLower reply etype choice ∧
    (check_spam_filter_with isupper tolower reply.data = true ↔
      ((spam_keywords.any fun k => containsSub k (reply.data.map tolower)) = true ∨
       10 * (reply.data.filter isupper).length > 3 * max reply.data.length 1 ∨
       reply.data.count '!' > 2 ∨ reply.data.count '?' > 2)) ∧
    (check_spam_filter_with isupper tolower reply.data = true →
      (engage_filter_step_with isupper tolower reply etype choice).content
        ∈ safe_templates ∧
      (engage_filter_step_with isupper tolower reply etype choice).confidence = 3/5) ∧
    (check_spam_filter_with isupper tolower reply.data = false →
      engage_filter_step_with isupper tolower reply etype choice =
        { content := reply, rtype := etype, confidence := 17/20 }) := by
  refine ⟨rfl, rfl, ?_, fun h => ?_, fun h => ?_⟩
  · by_cases h : (spam_keywords.any fun k => containsSub k (reply.data.map tolower)) = true
    · simp [check_spam_filter_with, h]
    · simp [check_spam_filter_with, h, Bool.or_eq_true, decide_eq_true_eq]
  · have hstep : engage_filter_step_with isupper tolower reply etype choice =
        regenerate_safe_response choice := by
      simp [engage_filter_step_with, h]
    rw [hstep]
    exact ⟨List.get_mem _ _ _, rfl⟩
  · simp [engage_filter_step_with, h]

theorem engagement_spam_filter_witness :
    ((engage_filter_step spam_reply "supportive_reply" ⟨2, by omega⟩).content
        ∈ safe_templates ∧
      (engage_filter_step spam_reply "supportive_reply" ⟨2, by omega⟩).confidence = 3/5) ∧
    engage_filter_step clean_reply "supportive_reply" ⟨2, by omega⟩ =
      { content := clean_reply, rtype := "supportive_reply", confidence := 17/20 } :=
  ⟨(engagement_spam_filter Char.isUpper Char.toLower spam_reply "supportive_reply"
      ⟨2, by omega⟩).2.2.2.1 (by decide),
   (engagement_spam_filter Char.isUpper Char.toLower clean_reply "supportive_reply"
      ⟨2, by omega⟩).2.2.2.2 (by decide)⟩

/-! ## C5: platform-limit trimming -/

theorem rfind_eq_neg_one_of_not_mem (c : Char) (l : List Char) (h : c ∉ l) :
    rfind c l = -1 := by
  induction l with
  | nil => rfl
  | cons a as ih =>
    have ha : ¬(a = c) := fun hac => h (hac ▸ List.mem_cons_self a as)
    have has : c ∉ as := fun hm => h (List.mem_cons_of_mem a hm)
    simp [rfind, ih has, ha]

theorem rfind_append_of_not_mem (c : Char) (l1 l2 : List Char) (h : c ∉ l2) :
    rfind c (l1 ++ l2) = rfind c l1 := by
  induction l1 with
  | nil => simpa using rfind_eq_neg_one_of_not_mem c l2 h
  | cons a as ih => simp only [List.cons_append, rfind, List.append_eq, ih]

theorem rfind_lt_length (c : Char) (l : List Char) : rfind c l < (l.length : ℤ) := by
  induction l with
  | nil => simp [rfind]
  | cons a as ih =>
    simp only [rfind, List.length_cons]
    split_ifs <;> push_cast <;> omega

/-- 230 `a`s, a space at index 230, 69 `b`s: 300 characters. -/
def c230 : List Char := List.replicate 230 'a' ++ [' '] ++ List.replicate 69 'b'

/-- 100 `a`s, a space at index 100, 199 `b`s: 300 characters. -/
def c100 : List Char := List.replicate 100 'a' ++ [' '] ++ List.replicate 199 'b'

/-- 224 `a`s, a space at index 224 (exactly 80% of 280), 75 `b`s: 300
characters. -/
def c224 : List Char := List.replicate 224 'a' ++ [' '] ++ List.replicate 75 'b'

set_option maxRecDepth 8000 in
/-- C5 (amended): against a platform character limit, content that fits is
returned unchanged; longer content is trimmed to at most the limit and
ends with `...`; the trim truncates to `limit-3` characters and appends
`...`, except that when the last space of the truncated string falls
STRICTLY past 80% of the limit the trim cuts at that word boundary
instead (a last space exactly at 80% — index 224 for limit 280 — does
not trigger the boundary cut; index 230 does, index 100 does not). -/
theorem trim_to_limit_spec (content : List Char) (p : String) (limit : ℕ)
    (hp : platform_limits p = some limit) :
    (content.length ≤ limit → trim_to_limit content limit = content) ∧
    (content.length > limit →
      (trim_to_limit content limit).length ≤ limit ∧
      "...".data <:+ trim_to_limit content limit ∧
      (((rfind ' ' (content.take (limit - 3) ++ "...".data) : ℚ) > (4/5) * limit →
        trim_to_limit content limit =
          (content.take (limit - 3) ++ "...".data).take
            (rfind ' ' (content.take (limit - 3) ++ "...".data)).toNat ++ "...".data) ∧
       ((rfind ' ' (content.take (limit - 3) ++ "...".data) : ℚ) ≤ (4/5) * limit →
        trim_to_limit content limit = content.take (limit - 3) ++ "...".data))) ∧
    trim_to_limit c230 280 = List.replicate 230 'a' ++ "...".data ∧
    trim_to_limit c100 280 = c100.take 277 ++ "...".data := by
  have hlim : 3 ≤ limit := by
    unfold platform_limits at hp
    split at hp <;> simp_all <;> omega
  refine ⟨fun h => ?_, fun h => ?_, by decide, by decide⟩
  · unfold trim_to_limit
    rw [if_pos h]
  · -- the long-content branch
    have hdots : ("...".data).length = 3 := by decide
    have heq : trim_to_limit content limit =
        if 5 * rfind ' ' (content.take (limit - 3) ++ "...".data) > 4 * (limit : ℤ) then
          (content.take (limit - 3) ++ "...".data).take
            (rfind ' ' (content.take (limit - 3) ++ "...".data)).toNat ++ "...".data
        else content.take (limit - 3) ++ "...".data := by
      unfold trim_to_limit
      rw [if_neg (by omega)]
    set ls := rfind ' ' (content.take (limit - 3) ++ "...".data) with hls_def
    have hlen_take : (content.take (limit - 3)).length = limit - 3 := by
      rw [List.length_take]
      omega
    have hls_bound : ls < ((limit : ℤ) - 3) := by
      have h1 : ls = rfind ' ' (content.take (limit - 3)) := by
        rw [hls_def, rfind_append_of_not_mem ' ' _ _ (by decide)]
      have h2 := rfind_lt_length ' ' (content.take (limit - 3))
      rw [hlen_take] at h2
      omega
    have hcast : ((ls : ℚ) > (4/5) * limit) ↔ 5 * ls > 4 * (limit : ℤ) := by
      constructor
      · intro hq
        have hq5 : (5 : ℚ) * ls > 4 * limit := by linarith
        exact_mod_cast hq5
      · intro hz
        have hq5 : (5 : ℚ) * ls > 4 * limit := by exact_mod_cast hz
        linarith
    by_cases hb : 5 * ls > 4 * (limit : ℤ)
    · -- boundary cut
      have hls_nonneg : 0 ≤ ls := by
        have h4 : (0 : ℤ) ≤ 4 * limit := by positivity
        omega
      have hts : ls.toNat ≤ (content.take (limit - 3)).length := by
        rw [hlen_take]
        omega
      have hres : trim_to_limit content limit =
          (content.take (limit - 3) ++ "...".data).take ls.toNat ++ "...".data := by
        rw [heq, if_pos hb]
      refine ⟨?_, ?_, fun _ => hres, fun hq => absurd (hcast.mpr hb) (not_lt.mpr hq)⟩
      · rw [hres, List.take_append_of_le_length hts]
        simp only [List.length_append, List.length_take, hlen_take, hdots]
        omega
      · rw [hres]
        exact ⟨_, rfl⟩
    · -- plain trim
      have hres : trim_to_limit content limit = content.take (limit - 3) ++ "...".data := by
        rw [heq, if_neg hb]
      refine ⟨?_, ?_, fun hq => absurd (hcast.mp hq) hb, fun _ => hres⟩
      · rw [hres]
        simp only [List.length_append, List.length_take, hdots]
        omega
      · rw [hres]
        exact ⟨_, rfl⟩

set_option maxRecDepth 8000 in
theorem trim_to_limit_spec_witness :
    (trim_to_limit c230 280).length ≤ 280 ∧ "...".data <:+ trim_to_limit c230 280 := by
  have h := (trim_to_limit_spec c230 "twitter" 280 rfl).2.1 (by decide)
  exact ⟨h.1, h.2.1⟩

set_option maxRecDepth 8000 in
/-- C5 counterexample to the claim as stated: with limit 280, a body
whose truncation has its last space at index 224 — exactly AT 80% of the
limit — is NOT boundary-trimmed (the code tests `last_space > limit*0.8`
strictly); the result is the plain `limit-3` truncation, not the
word-boundary cut the claim prescribes for a space "at or past" 80%. -/
theorem trim_claim_80pct_counterexample :
    rfind ' ' (c224.take 277 ++ "...".data) = 224 ∧
    (224 : ℚ) = (4/5) * 280 ∧
    trim_to_limit c224 280 = c224.take 277 ++ "...".data ∧
    trim_to_limit c224 280 ≠ (c224.take 277 ++ "...".data).take 224 ++ "...".data :=
  ⟨by decide, by norm_num, by decide, by decide⟩

/-! ## C4: sliding-window rate limiter -/

/-- C4: the claim (and the spec) describe the sliding-window algorithm the
code writes out — countdown of `remaining` 4,3,2,1,0 over five admitted
checks, then denial with `retry_after = 60` — but the implementation never
performs it: on every call the awaited buffered pipeline commands return
the Pipeline object, `current_count < limit` raises `TypeError`, and the
blanket `except Exception` fails open, answering True with an empty info
dictionary and leaving the stored set unchanged.  In particular every check of the claimed
limit=5/window=60 scenario — including the sixth — is admitted with empty
rate-limit info. -/
theorem rate_limiter_fails_open (s : List ℤ) (now limit window_seconds : ℤ) :
    is_allowed_try s now limit window_seconds =
      .error "TypeError: Pipeline is not comparable with int" ∧
    RateLimiter.is_allowed s now limit window_seconds = ((true, none), s) ∧
    RateLimiter.is_allowed [] 100 5 60 = ((true, none), []) ∧
    (RateLimiter.is_allowed [] 105 5 60).1.1 = true :=
  ⟨rfl, rfl, rfl, rfl⟩

/-! ## C3: agent fallbacks -/

theorem pick_mem (l : List String) (choice : ℕ) (h : l ≠ []) : pick l choice ∈ l := by
  have hl : 0 < l.length := List.length_pos.mpr h
  have hi : choice % l.length < l.length := Nat.mod_lt _ hl
  unfold pick
  rw [List.getD_eq_getElem?_getD, List.getElem?_eq_getElem hi]
  simp only [Option.getD_some]
  exact List.getElem_mem hi

theorem fallback_templates_ne_nil (platform prompt : String) :
    fallback_templates platform prompt ≠ [] := by
  unfold fallback_templates
  split <;> simp

theorem fallback_responses_ne_nil (platform : String) :
    fallback_responses platform ≠ [] := by
  unfold fallback_responses
  split <;> simp

/-- C3 (amended): on an internal failure (a failing Anthropic call) none
of the three agent operations propagates the exception: each answers its
deterministic local fallback.  The `ContentAgent` and `EngagementAgent`
fallback payloads are annotated with `fallback_mode: True` (their
success payloads carry no such key), and their fallback contents come
from the fixed template lists; the `AnalyticsAgent` fallback payload,
however, carries NO `fallback_mode` key — it is distinguishable only by
its fixed synthetic values. -/
theorem agents_fallback_behaviour
    (e : String) (qchoice fchoice tchoice : ℕ) (safe_choice : Fin 5)
    (s : EngState) (now : ℤ) (platform prompt post_id : String)
    (context : Option EngContext) (opt : Bool)
    (m : AnalyticsMetrics) (insights : List String) (pc : ℚ) (days : ℕ) :
    ContentAgent.generate (.error e) qchoice fchoice platform prompt opt =
      fallback_generation platform
        (if opt then enhance_with_trends prompt else prompt) fchoice ∧
    (fallback_generation platform prompt fchoice).metadata.fallback_mode = some true ∧
    (fallback_generation platform prompt fchoice).primary_content
      ∈ fallback_templates platform prompt ∧
    (∀ generated,
      (ContentAgent.generate (.ok generated) qchoice fchoice platform
          prompt opt).metadata.fallback_mode = none) ∧
    ((check_rate_limit s now).1 = true →
      (EngagementAgent.engage (.error e) s now tchoice safe_choice fchoice
          platform post_id context).1 = fallback_engagement platform post_id fchoice) ∧
    (fallback_engagement platform post_id fchoice).metadata =
      some { platform := platform, post_id := post_id, fallback_mode := some true } ∧
    (∃ r ∈ fallback_responses platform,
      (fallback_engagement platform post_id fchoice).engagement =
        some { content := r, rtype := "fallback", confidence := 1/2 }) ∧
    AnalyticsAgent.get_summary (some e) m insights pc platform days =
      fallback_analytics platform days ∧
    (fallback_analytics platform days).fallback_mode = none := by
  refine ⟨rfl, rfl, pick_mem _ _ (fallback_templates_ne_nil platform prompt),
    fun generated => rfl, ?_, rfl,
    ⟨pick (fallback_responses platform) fchoice,
      pick_mem _ _ (fallback_responses_ne_nil platform), rfl⟩, rfl, rfl⟩
  intro h
  rcases hc : check_rate_limit s now with ⟨ok, s2⟩
  rw [hc] at h
  simp only at h
  simp [EngagementAgent.engage, hc, h]

theorem agents_fallback_behaviour_witness :
    (EngagementAgent.engage (.error "boom") {} 0 0 ⟨0, by omega⟩ 0
        "twitter" "p1" none).1 = fallback_engagement "twitter" "p1" 0 :=
  (agents_fallback_behaviour "boom" 0 0 0 ⟨0, by omega⟩ {} 0 "twitter" "x" "p1"
      none true {} [] (3/4) 7).2.2.2.2.1 (by decide)

/-- C3 counterexample to the claim as stated: when `get_summary` fails
internally it answers the `_fallback_analytics` payload, and that payload
carries NO `fallback_mode` flag (no code path of the analytics agent
writes such a key), so the caller cannot distinguish it by the flag the
claim promises. -/
theorem analytics_fallback_unflagged_counterexample :
    AnalyticsAgent.get_summary (some "api error") {} [] (3/4) "all" 7 =
      fallback_analytics "all" 7 ∧
    (AnalyticsAgent.get_summary (some "api error") {} [] (3/4) "all" 7).fallback_mode
      = none :=
  ⟨rfl, rfl⟩

/-! ## C2: non-owner access -/

/-- A content item owned by `alice`. -/
def alice_content : Content := { user_id := "alice", text := "hi" }

/-- Repositories holding the user `bob` and alice's content `c1`. -/
def wrepos : Repos :=
  { users := fun i => if i = "bob" then some { email := "bob@x.y" } else none,
    contents := fun i => if i = "c1" then some alice_content else none }

/-- C2: for an existing requesting user and a content item owned by
someone else, `schedule_content`, `publish_content` and
`get_content_analytics` all fail with the Validation fault
`'Content not found or access denied'` (no content is returned); the
DELETE handler, however, answers status 500 — its blanket
`except Exception` catches the deliberately raised 404 `HTTPException`
and re-raises it as `HTTPException(500, str(e))` — rather than the 404
the spec describes. -/
theorem non_owner_access_denied (r : Repos) (u cid : String) (c : Content)
    (t now : ℤ) (pub : Except String (String × String))
    (fresh : Option ContentMetrics)
    (hu : (r.users u).isSome = true)
    (hc : r.contents cid = some c) (hne : c.user_id ≠ u) :
    ContentService.schedule_content r u cid t now =
      .error (.validation "Content not found or access denied") ∧
    ContentService.publish_content r pub u cid now =
      .error (.validation "Content not found or access denied") ∧
    ContentService.get_content_analytics r fresh u cid now =
      .error (.validation "Content not found or access denied") ∧
    delete_content_handler r.contents cid u true =
      .error ⟨500, "404: Content not found"⟩ := by
  obtain ⟨usr, husr⟩ := Option.isSome_iff_exists.mp hu
  refine ⟨?_, ?_, ?_, ?_⟩
  · simp [ContentService.schedule_content, husr, hc, hne]
  · simp [ContentService.publish_content, husr, hc, hne]
  · simp [ContentService.get_content_analytics, husr, hc, hne]
  · simp only [delete_content_handler, hc, HTTPError.str]
    rw [if_pos hne]
    rfl

theorem non_owner_access_denied_witness :
    ContentService.schedule_content wrepos "bob" "c1" 5 0 =
      .error (.validation "Content not found or access denied") ∧
    ContentService.publish_content wrepos (.ok ("p", "u")) "bob" "c1" 0 =
      .error (.validation "Content not found or access denied") ∧
    ContentService.get_content_analytics wrepos none "bob" "c1" 0 =
      .error (.validation "Content not found or access denied") ∧
    delete_content_handler wrepos.contents "c1" "bob" true =
      .error ⟨500, "404: Content not found"⟩ :=
  non_owner_access_denied wrepos "bob" "c1" alice_content 5 0 (.ok ("p", "u")) none
    rfl rfl (by decide)

end Northstar
